import Mathlib

/-!
Verification of the Windows USB backend (`src/libusb/os/windows_usb.c`).

This file gives a shallow embedding of the data structures and functions of
the backend that the specification's claims are about, and proves or refutes
each claim against that embedding.  Machine integers are modelled as `Nat`
or `Int` with explicit `% 2 ^ w` where C truncation matters, C strings are
modelled as lists of non-zero bytes with NUL-terminated access semantics
(`getD _ 0`), and the external OS calls (SetupAPI, DeviceIoControl, the
libusb core entry points) are passed in as explicit oracle parameters, since
their code is not part of this translation unit.
-/

/-! ## Constants from `libusb.h` and `windows_usb.h`

These numeric values come from the public libusb headers and the backend's
private header, which are not part of this source file but are fixed by the
libusb ABI. -/

def USB_MAXINTERFACES : Nat := 32

def MAX_USB_HOST_CONTROLLERS : Nat := 10

/-- `usb_api_backend` indices (`USB_API_*` in `windows_usb.h`). -/
def USB_API_UNSUPPORTED : Nat := 0

def USB_API_HUB : Nat := 1

def USB_API_COMPOSITE : Nat := 2

def USB_API_WINUSBX : Nat := 3

def USB_API_HID : Nat := 4

def SUB_API_NOTSET : Int := -1

/-- libusb error codes (`enum libusb_error`). -/
def LIBUSB_SUCCESS : Int := 0

def LIBUSB_ERROR_IO : Int := -1

def LIBUSB_ERROR_INVALID_PARAM : Int := -2

def LIBUSB_ERROR_ACCESS : Int := -3

def LIBUSB_ERROR_NO_DEVICE : Int := -4

def LIBUSB_ERROR_NOT_FOUND : Int := -5

def LIBUSB_ERROR_OVERFLOW : Int := -8

def LIBUSB_ERROR_NO_MEM : Int := -11

def LIBUSB_ERROR_OTHER : Int := -99

/-- libusb transfer statuses (`enum libusb_transfer_status`). -/
def LIBUSB_TRANSFER_COMPLETED : Int := 0

def LIBUSB_TRANSFER_ERROR : Int := 1

def LIBUSB_TRANSFER_TIMED_OUT : Int := 2

def LIBUSB_TRANSFER_CANCELLED : Int := 3

def LIBUSB_TRANSFER_STALL : Int := 4

def LIBUSB_TRANSFER_OVERFLOW : Int := 6

/-- Windows error codes used by the completion switch. -/
def NO_ERROR : Nat := 0

def ERROR_GEN_FAILURE : Nat := 31

def ERROR_SEM_TIMEOUT : Nat := 121

def ERROR_OPERATION_ABORTED : Nat := 995

/-! ## `windows_get_config_descriptor` (lines 2533-2553)

The cached configuration descriptors live in `priv->config_descriptor`, an
array of `num_configurations` byte blobs, any of which may be NULL.  The
blob's `wTotalLength` field is the 16-bit little-endian quantity at byte
offsets 2 and 3 of the blob (`USB_CONFIGURATION_DESCRIPTOR`). -/

/-- `wTotalLength` of a cached configuration descriptor blob. -/
def wTotalLength (blob : List Nat) : Nat :=
  blob.getD 2 0 + 256 * blob.getD 3 0

/-- Embedding of `windows_get_config_descriptor`.  Returns the C return value
together with the bytes copied into the caller's buffer. -/
def windows_get_config_descriptor (num_configurations : Nat)
    (config_descriptor : Option (List (Option (List Nat))))
    (config_index : Nat) (len : Nat) : Int × List Nat :=
  if config_index ≥ num_configurations then
    (LIBUSB_ERROR_INVALID_PARAM, [])
  else
    match config_descriptor with
    | none => (LIBUSB_ERROR_NOT_FOUND, [])
    | some blobs =>
      match blobs.getD config_index none with
      | none => (LIBUSB_ERROR_NOT_FOUND, [])
      | some blob =>
        let size := min (wTotalLength blob) len
        ((size : Int), blob.take size)

/-! ## `auto_claim` / `auto_release` (lines 899-971)

The per-handle auto-claim reference counters
(`handle_priv->autoclaim_count`, one per interface slot) are modelled as a
list of `USB_MAXINTERFACES` naturals.  `libusb_claim_interface` is a libusb
core entry point outside this translation unit; it is passed in as an
oracle `claimOK` giving the success of each attempted claim, and every
invocation of it is recorded so that "the backend's claim operation is not
invoked" is observable in the result.  `apib i` gives
`priv->usb_interface[i].apib->id`. -/

structure AutoClaimOut where
  r : Int
  interface_number : Int
  counts : List Nat
  /-- Interfaces on which `libusb_claim_interface` was invoked, in order. -/
  claimCalls : List Nat
deriving DecidableEq, Repr

/-- The `for` scan of `auto_claim` over candidate interfaces (lines 919-930):
the first interface of the requested API type that claims successfully gets
its auto-claim counter incremented and the scan stops.  `counts` is only
mutated on a successful claim.  Returns the found interface, the updated
counters, and the interfaces on which `libusb_claim_interface` was
invoked. -/
def auto_claim_scan (apib : Nat → Nat) (claimOK : Nat → Bool) (api_type : Nat)
    (counts : List Nat) : List Nat → Option Nat × List Nat × List Nat
  | [] => (none, counts, [])
  | i :: rest =>
    if apib i = api_type then
      if claimOK i then
        (some i, counts.set i (counts.getD i 0 + 1), [i])
      else
        let out := auto_claim_scan apib claimOK api_type counts rest
        (out.1, out.2.1, i :: out.2.2)
    else auto_claim_scan apib claimOK api_type counts rest

/-- Embedding of `auto_claim`.  `interface_number` is the in/out parameter:
negative means no serviceable interface was found by the caller. -/
def auto_claim (apib : Nat → Nat) (claimOK : Nat → Bool) (counts : List Nat)
    (interface_number : Int) (api_type : Nat) : AutoClaimOut :=
  if api_type = USB_API_WINUSBX ∨ api_type = USB_API_HID then
    if interface_number < 0 then
      match auto_claim_scan apib claimOK api_type counts
          (List.range USB_MAXINTERFACES) with
      | (some i, counts2, calls) => ⟨LIBUSB_SUCCESS, (i : Int), counts2, calls⟩
      | (none, counts2, calls) =>
        ⟨LIBUSB_ERROR_NOT_FOUND, (USB_MAXINTERFACES : Int), counts2, calls⟩
    else
      let n := interface_number.toNat
      if counts.getD n 0 ≠ 0 then
        ⟨LIBUSB_SUCCESS, interface_number, counts.set n (counts.getD n 0 + 1), []⟩
      else
        ⟨LIBUSB_SUCCESS, interface_number, counts, []⟩
  else ⟨LIBUSB_ERROR_INVALID_PARAM, interface_number, counts, []⟩

/-- Embedding of `auto_release` (invoked from `windows_clear_transfer_priv`
on every transfer teardown).  Returns the updated counters and whether
`libusb_release_interface` was invoked. -/
def auto_release (counts : List Nat) (interface_number : Nat) : List Nat × Bool :=
  let c := counts.getD interface_number 0
  if 0 < c then
    (counts.set interface_number (c - 1), decide (c - 1 = 0))
  else (counts, false)

/-- `n` consecutive transfer teardowns against the same interface: final
counters and the total number of `libusb_release_interface` invocations. -/
def auto_release_iter (counts : List Nat) (interface_number : Nat) :
    Nat → List Nat × Nat
  | 0 => (counts, 0)
  | n + 1 =>
    let step := auto_release counts interface_number
    let rest := auto_release_iter step.1 interface_number n
    (rest.1, (if step.2 then 1 else 0) + rest.2)

/-- The interface-resolution prefix of `winusbx_submit_control_transfer`
(lines 3677-3682): if `get_valid_interface` found no claimed interface with
a live handle, `auto_claim` is attempted, and any `auto_claim` failure makes
the submission return `LIBUSB_ERROR_NOT_FOUND`. -/
def winusbx_submit_control_resolve (apib : Nat → Nat) (claimOK : Nat → Bool)
    (counts : List Nat) (valid_interface : Int) : Except Int (Int × List Nat) :=
  if valid_interface < 0 then
    let out := auto_claim apib claimOK counts valid_interface USB_API_WINUSBX
    if out.r ≠ LIBUSB_SUCCESS then Except.error LIBUSB_ERROR_NOT_FOUND
    else Except.ok (out.interface_number, out.counts)
  else Except.ok (valid_interface, counts)

/-! ## `windows_transfer_callback` (lines 2838-2878) and the
`copy_transfer_data` backend step

`copy` abstracts `priv->apib->copy_transfer_data`: it is given `io_size`
and returns a `libusb_transfer_status`.  The callback reports exactly one
terminal status; `copyCalls` counts the invocations of the copy step made
before that status is reported. -/

structure CallbackOut where
  status : Int
  copyCalls : Nat
deriving DecidableEq, Repr

/-- Embedding of `windows_transfer_callback`.  `timedOut` is the
`USBI_TRANSFER_TIMED_OUT` flag of the transfer. -/
def windows_transfer_callback (copy : Nat → Int) (timedOut : Bool)
    (io_result io_size : Nat) : CallbackOut :=
  if io_result = NO_ERROR then
    ⟨copy io_size, 1⟩
  else if io_result = ERROR_GEN_FAILURE then
    ⟨LIBUSB_TRANSFER_STALL, 0⟩
  else if io_result = ERROR_SEM_TIMEOUT then
    ⟨LIBUSB_TRANSFER_TIMED_OUT, 0⟩
  else if io_result = ERROR_OPERATION_ABORTED then
    ⟨if timedOut then LIBUSB_TRANSFER_TIMED_OUT else LIBUSB_TRANSFER_CANCELLED, 1⟩
  else ⟨LIBUSB_TRANSFER_ERROR, 0⟩

/-- `winusbx_copy_transfer_data` (lines 3936-3940): always reports
`LIBUSB_TRANSFER_COMPLETED`, crediting `io_size` transferred bytes. -/
def winusbx_copy_transfer_data (io_size : Nat) : Int × Nat :=
  (LIBUSB_TRANSFER_COMPLETED, io_size)

/-- Transfer-private scratch state used by the HID backend
(`hid_buffer` / `hid_dest` / `hid_expected_size`). -/
structure HidXferState where
  hid_buffer : Option (List Nat)
  hid_dest : Bool
  hid_expected_size : Nat
deriving DecidableEq, Repr

/-- Embedding of `hid_copy_transfer_data` (lines 4947-4978): returns the
reported status and the transferred byte count.  An async read whose
`io_size` exceeds the expected size reports `LIBUSB_TRANSFER_OVERFLOW`. -/
def hid_copy_transfer_data (st : HidXferState) (io_size : Nat) : Int × Nat :=
  match st.hid_buffer with
  | some buf =>
    if st.hid_dest then
      let r := if io_size > st.hid_expected_size then LIBUSB_TRANSFER_OVERFLOW
        else LIBUSB_TRANSFER_COMPLETED
      let corrected := if io_size > st.hid_expected_size then st.hid_expected_size
        else io_size
      let corrected2 := if buf.getD 0 0 = 0 then corrected - 1 else corrected
      (r, corrected2)
    else (LIBUSB_TRANSFER_COMPLETED, io_size)
  | none => (LIBUSB_TRANSFER_COMPLETED, io_size)

/-! ## Composite interface slots (lines 2248-2306, 2336-2391)

Device instance ids are modelled as lists of non-zero bytes; indexing past
the end reads the NUL terminator (`0`), matching the C string accesses.
The MI ordinal scan is the exact loop of `set_composite_interface` /
`unset_composite_interface`: each failed partial match of `"MI_"` has
already post-incremented the index past the characters it examined. -/

/-- `device_id[i]` with NUL-terminated semantics. -/
def charAt (s : List Nat) (i : Nat) : Nat := s.getD i 0

/-- The MI scan loop.  Returns the parsed `interface_number` (an `int`: the
two bytes after the marker are taken as digits without validation) and the
final value of the index `i`.  The fuel argument only bounds the recursion;
`s.length + 1` is always enough because `i` strictly increases and the loop
stops at the terminator. -/
def mi_scan (s : List Nat) : Nat → Nat → Int × Nat
  | _, 0 => (0, 0)
  | i, fuel + 1 =>
    if charAt s i ≠ 0 then
      if charAt s i = 77 then
        if charAt s (i + 1) = 73 then
          if charAt s (i + 2) = 95 then
            (((charAt s (i + 3) : Int) - 48) * 10 + ((charAt s (i + 4) : Int) - 48),
              i + 4)
          else mi_scan s (i + 3) fuel
        else mi_scan s (i + 2) fuel
      else mi_scan s (i + 1) fuel
    else (0, i)

/-- Ordinal extraction as performed by both `set_composite_interface` and
`unset_composite_interface`: the parsed `interface_number` and whether the
"failure to read interface number" warning fires (`device_id[i] == 0` after
the loop). -/
def parse_mi (s : List Nat) : Int × Bool :=
  let out := mi_scan s 0 (s.length + 1)
  (out.1, decide (charAt s out.2 = 0))

/-- One entry of `priv->usb_interface[]`. -/
structure UsbInterfaceSlot where
  path : Option String
  apibId : Nat
  sub_api : Int
deriving DecidableEq, Repr

/-- The state `windows_device_priv_init` gives each slot. -/
def emptySlot : UsbInterfaceSlot :=
  ⟨none, USB_API_UNSUPPORTED, SUB_API_NOTSET⟩

/-- The slice of `windows_device_priv` that the composite aggregator
mutates.  `hid` records whether `priv->hid` is allocated. -/
structure CompositePriv where
  apibId : Nat
  usb_interface : List UsbInterfaceSlot
  hid : Bool
deriving DecidableEq, Repr

/-- A freshly initialised composite device: 32 empty interface slots. -/
def freshComposite : CompositePriv :=
  ⟨USB_API_COMPOSITE, List.replicate USB_MAXINTERFACES emptySlot, false⟩

/-- Embedding of `set_composite_interface`.  A negative parsed ordinal would
index the C array out of bounds (undefined behaviour); it is clamped by
`Int.toNat` here and never reached by the claims, whose ordinals are
non-negative. -/
def set_composite_interface (priv : CompositePriv) (dev_interface_path : String)
    (device_id : List Nat) (api : Nat) (sub_api : Int) : Int × CompositePriv :=
  if priv.apibId ≠ USB_API_COMPOSITE then (LIBUSB_ERROR_NO_DEVICE, priv)
  else
    let n := (parse_mi device_id).1
    if n ≥ (USB_MAXINTERFACES : Int) then (LIBUSB_ERROR_OTHER, priv)
    else
      let i := n.toNat
      if (priv.usb_interface.getD i emptySlot).path ≠ none ∧ api = USB_API_HID then
        (LIBUSB_ERROR_ACCESS, priv)
      else
        (LIBUSB_SUCCESS,
          { priv with
            usb_interface :=
              priv.usb_interface.set i ⟨some dev_interface_path, api, sub_api⟩
            hid := if api = USB_API_HID ∧ ¬priv.hid then true else priv.hid })

/-- Embedding of `unset_composite_interface`. -/
def unset_composite_interface (priv : CompositePriv) (device_id : List Nat) :
    CompositePriv :=
  if priv.apibId ≠ USB_API_COMPOSITE then priv
  else
    let n := (parse_mi device_id).1
    if n ≥ (USB_MAXINTERFACES : Int) then priv
    else
      let i := n.toNat
      if (priv.usb_interface.getD i emptySlot).path = none then priv
      else
        let ifs := priv.usb_interface.set i emptySlot
        let hid_present := ifs.any fun slot => slot.apibId = USB_API_HID
        { priv with usb_interface := ifs
                    hid := if hid_present then priv.hid else false }

/-! ## Host controller bus numbers: `force_hcd_device_descriptor`
(lines 1759-1828)

`host_controller` is a fixed array of `MAX_USB_HOST_CONTROLLERS` string
slots, filled from the front and never cleared; it is modelled as a list of
`Option String` whose length is the capacity. -/

/-- The lookup/insertion loop of lines 1782-1790: walk the table; the first
free slot receives the id, an existing match stops the walk.  Returns the
updated table and the final `index` (= the table length when the loop ran
off the end). -/
def hcd_locate : List (Option String) → String → List (Option String) × Nat
  | [], _ => ([], 0)
  | none :: rest, id => (some id :: rest, 0)
  | some s :: rest, id =>
    if s = id then (some s :: rest, 0)
    else
      let out := hcd_locate rest id
      (some s :: out.1, out.2 + 1)

/-- The bus-number assignment of `force_hcd_device_descriptor`: `none` is
the "too many host controllers" failure (the function returns an error and
no bus number is assigned), otherwise the bus number is `index + 1`
truncated to `uint8_t`. -/
def force_hcd_bus (table : List (Option String)) (id : String) :
    List (Option String) × Option Nat :=
  let out := hcd_locate table id
  if out.2 = table.length then (out.1, none)
  else (out.1, some ((out.2 + 1) % 256))

/-- The process-global `host_controller` table at start-up. -/
def host_controller_init : List (Option String) :=
  List.replicate MAX_USB_HOST_CONTROLLERS none

/-! ## `init_device` (lines 1934-2049)

The libusb device fields mutated by `init_device`, the backend-private
fields it touches, and the results of the external OS calls (hub handle
open, `IOCTL_USB_GET_NODE_CONNECTION_INFORMATION_EX`, the host-controller
descriptor synthesis) as an explicit environment. -/

structure UsbDevice where
  bus_number : Nat
  device_address : Nat
  port_number : Nat
  num_configurations : Nat
  speed : Nat
deriving DecidableEq, Repr

structure DevPrivState where
  apibId : Nat
  port : Nat
  depth : Nat
  active_config : Nat
deriving DecidableEq, Repr

/-- The `USB_NODE_CONNECTION_INFORMATION_EX` fields `init_device` reads. -/
structure ConnInfo where
  noDeviceConnected : Bool
  deviceAddress : Nat
  currentConfig : Nat
  speed : Nat
  numConfigurations : Nat
deriving DecidableEq, Repr

/-- Results of the external calls made by `init_device`:
`hcdBus` is the bus number `force_hcd_device_descriptor` assigns (`none` on
its failure paths, in which case `dev->bus_number` keeps its zero-initial
value), `openOk` / `ioctlOk` the outcomes of opening the parent hub and of
the node-connection ioctl, `cacheOk` the outcome of
`cache_config_descriptors`. -/
structure InitEnv where
  hcdBus : Option Nat
  openOk : Bool
  ioctlOk : Bool
  conn : ConnInfo
  cacheOk : Bool
deriving DecidableEq, Repr

/-- `libusb_speed` mapping of lines 2030-2038 (unknown speeds leave the
field unchanged). -/
def connSpeedToLibusb (s : Nat) (old : Nat) : Nat :=
  if s = 0 then 1 else if s = 1 then 2 else if s = 2 then 3 else
  if s = 3 then 4 else old

/-- Embedding of `init_device`.  Returns the C return value and the updated
device / private state. -/
def init_device (dev : UsbDevice) (priv : DevPrivState)
    (parent : Option (UsbDevice × DevPrivState)) (port_number : Nat)
    (env : InitEnv) : Int × UsbDevice × DevPrivState :=
  if port_number = 0 then
    match parent with
    | some _ => (LIBUSB_ERROR_OTHER, dev, priv)
    | none =>
      let dev1 := { dev with device_address := 1, port_number := 0 }
      let priv1 := { priv with port := 0, depth := 0 }
      match env.hcdBus with
      | some b =>
        let dev2 := { dev1 with bus_number := b % 256, num_configurations := 1 }
        let priv2 := { priv1 with active_config := 1 }
        if dev2.bus_number = 0 then (LIBUSB_ERROR_NOT_FOUND, dev2, priv2)
        else (LIBUSB_SUCCESS, dev2, priv2)
      | none =>
        if dev1.bus_number = 0 then (LIBUSB_ERROR_NOT_FOUND, dev1, priv1)
        else (LIBUSB_SUCCESS, dev1, priv1)
  else
    match parent with
    | none => (LIBUSB_ERROR_NOT_FOUND, dev, priv)
    | some (pdev, ppriv) =>
      if ppriv.apibId ≠ USB_API_HUB then (LIBUSB_ERROR_NOT_FOUND, dev, priv)
      else if pdev.bus_number = 0 then (LIBUSB_ERROR_NOT_FOUND, dev, priv)
      else
        let dev1 := { dev with bus_number := pdev.bus_number,
                               port_number := port_number }
        let priv1 := { priv with port := port_number, depth := ppriv.depth + 1 }
        if dev1.device_address ≠ 0 then (LIBUSB_SUCCESS, dev1, priv1)
        else if ¬env.openOk then (LIBUSB_ERROR_ACCESS, dev1, priv1)
        else if ¬env.ioctlOk then (LIBUSB_ERROR_NO_DEVICE, dev1, priv1)
        else if env.conn.noDeviceConnected then (LIBUSB_ERROR_NO_DEVICE, dev1, priv1)
        else
          let nconf := if env.cacheOk then env.conn.numConfigurations else 0
          let dev2 := { dev1 with
            num_configurations := nconf
            device_address := (env.conn.deviceAddress % 256 + 1) % 256
            speed := connSpeedToLibusb env.conn.speed dev1.speed }
          let priv2 := { priv1 with active_config := env.conn.currentConfig }
          (LIBUSB_SUCCESS, dev2, priv2)

/-! ## The identity registry hash table: `htab_hash` (lines 681-767)

Strings are lists of non-zero bytes (`char` values of a NUL-terminated C
string).  `used` stores the table hash `hval` of the resident string
(`0` = free), exactly as in the C.  The table has `size + 1` entries so
that index `0` can serve as the error marker.  The probe loop is given
`size` units of fuel; the C loop terminates within that many steps for the
prime table sizes used by `htab_create`, and the theorems only concern runs
that did not exhaust the fuel. -/

def HTAB_WORD : Nat := 4294967296

structure HtabEntry where
  used : Nat
  str : Option (List Nat)
deriving DecidableEq, Repr

structure Htab where
  size : Nat
  filled : Nat
  table : List HtabEntry
deriving DecidableEq, Repr

/-- The main hash of lines 692-696: djb2 over the bytes, in the 32-bit
`unsigned long` of the target, forced non-zero. -/
def djb2 (s : List Nat) : Nat :=
  s.foldl (fun r c => (r * 33 + c) % HTAB_WORD) 5381

def htab_entryAt (t : Htab) (i : Nat) : HtabEntry :=
  t.table.getD i ⟨0, none⟩

/-- The equality test of lines 707-708 / 731-732: stored first-hash equal
and string compare equal. -/
def htab_entry_matches (t : Htab) (i hval : Nat) (s : List Nat) : Prop :=
  (htab_entryAt t i).used = hval ∧ (htab_entryAt t i).str = some s

instance (t : Htab) (i hval : Nat) (s : List Nat) :
    Decidable (htab_entry_matches t i hval s) :=
  inferInstanceAs (Decidable (_ ∧ _))

/-- The index step of lines 719-723. -/
def hstep (size hval2 idx : Nat) : Nat :=
  if idx ≤ hval2 then size + idx - hval2 else idx - hval2

inductive ProbeRes where
  | found (idx : Nat)
  | insertAt (idx : Nat)
  | fuelOut
deriving DecidableEq, Repr

/-- The do-while probe loop of lines 717-736, entered after the first index
collided: step the index; leaving the loop (cycle completed, or a free
entry reached) selects the insertion index, a matching entry is returned as
found. -/
def htab_probe (t : Htab) (hval hval2 : Nat) (s : List Nat) :
    Nat → Nat → ProbeRes
  | _, 0 => ProbeRes.fuelOut
  | idx, fuel + 1 =>
    let j := hstep t.size hval2 idx
    if j = hval then ProbeRes.insertAt j
    else if htab_entry_matches t j hval s then ProbeRes.found j
    else if (htab_entryAt t j).used ≠ 0 then htab_probe t hval hval2 s j fuel
    else ProbeRes.insertAt j

/-- The new-entry code of lines 739-766 (string duplication assumed to
succeed): full tables fail with the `0` error index, otherwise the entry is
written and the fill count incremented. -/
def htab_insert (t : Htab) (idx hval : Nat) (s : List Nat) : Nat × Htab :=
  if t.filled ≥ t.size then (0, t)
  else (idx, { t with table := t.table.set idx ⟨hval, some s⟩,
                      filled := t.filled + 1 })

/-- The table hash of lines 698-701: the main hash reduced modulo the table
size, forced non-zero (index 0 is the error marker). -/
def htab_main_hval (size : Nat) (s : List Nat) : Nat :=
  if (if djb2 s = 0 then 1 else djb2 s) % size = 0 then 1
  else (if djb2 s = 0 then 1 else djb2 s) % size

/-- The body of `htab_hash` after the table hash has been computed: first
index check, collision probe (with the secondary hash
`1 + hval % (size - 2)` of line 715), then the new-entry code. -/
def htab_lookup_insert (t : Htab) (hval : Nat) (s : List Nat) : Nat × Htab :=
  if (htab_entryAt t hval).used ≠ 0 then
    if htab_entry_matches t hval hval s then (hval, t)
    else
      match htab_probe t hval (1 + hval % (t.size - 2)) s hval t.size with
      | ProbeRes.found i => (i, t)
      | ProbeRes.insertAt i => htab_insert t i hval s
      | ProbeRes.fuelOut => (0, t)
  else htab_insert t hval hval s

/-- Embedding of `htab_hash`.  `none` is the NULL string argument. -/
def htab_hash (t : Htab) (s : Option (List Nat)) : Nat × Htab :=
  match s with
  | none => (0, t)
  | some str => htab_lookup_insert t (htab_main_hval t.size str) str

/-- An `htab_create`-fresh table of the given size (the C allocates
`size + 1` zeroed entries). -/
def htab_fresh (size : Nat) : Htab :=
  ⟨size, 0, List.replicate (size + 1) ⟨0, none⟩⟩

/-! ## Helper lemmas -/

theorem list_getD_set_ne {α : Type} (l : List α) (i j : Nat) (a d : α)
    (h : i ≠ j) : (l.set i a).getD j d = l.getD j d := by
  simp [List.getD_eq_getElem?_getD, List.getElem?_set_ne h]

theorem list_getD_set_self {α : Type} (l : List α) (i : Nat) (a d : α)
    (h : i < l.length) : (l.set i a).getD i d = a := by
  simp [List.getD_eq_getElem?_getD, List.getElem?_set_self, h]

theorem list_getD_ne_default_lt {α : Type} (l : List α) (i : Nat) (d : α)
    (h : l.getD i d ≠ d) : i < l.length := by
  by_contra hc
  simp [List.getD_eq_getElem?_getD, List.getElem?_eq_none (le_of_not_lt hc)] at h

/-- Counting the `libusb_release_interface` invocations over `n` teardowns:
exactly one, at the teardown that takes the counter to zero. -/
theorem auto_release_iter_count (N : Nat) : ∀ (n : Nat) (counts : List Nat),
    (auto_release_iter counts N n).2
      = (if 1 ≤ counts.getD N 0 ∧ counts.getD N 0 ≤ n then 1 else 0) := by
  intro n
  induction n with
  | zero =>
    intro counts
    rw [auto_release_iter, if_neg (by omega)]
  | succ n ih =>
    intro counts
    by_cases hc : 0 < counts.getD N 0
    · have hlt : N < counts.length :=
        list_getD_ne_default_lt counts N 0 (by omega)
      have hget : (counts.set N (counts.getD N 0 - 1)).getD N 0
          = counts.getD N 0 - 1 := list_getD_set_self _ _ _ _ hlt
      simp only [auto_release_iter, auto_release, if_pos hc]
      rw [ih, hget]
      simp only [decide_eq_true_eq]
      split_ifs <;> omega
    · simp only [auto_release_iter, auto_release, if_neg hc]
      rw [ih]
      simp only [List.getD_eq_getElem?_getD] at hc ⊢
      have h0 : counts[N]?.getD 0 = 0 := by omega
      simp [h0]

/-- The `auto_claim` scan finds nothing and leaves the counters alone when
no interface of the requested API type claims successfully. -/
theorem auto_claim_scan_none (apib : Nat → Nat) (claimOK : Nat → Bool)
    (api_type : Nat) (counts : List Nat) (l : List Nat)
    (h : ∀ i ∈ l, apib i = api_type → claimOK i = false) :
    (auto_claim_scan apib claimOK api_type counts l).1 = none
    ∧ (auto_claim_scan apib claimOK api_type counts l).2.1 = counts := by
  induction l with
  | nil => simp [auto_claim_scan]
  | cons i rest ih =>
    have hrest := ih fun j hj hapi => h j (List.mem_cons_of_mem _ hj) hapi
    by_cases hapi : apib i = api_type
    · have hcl : claimOK i = false := h i (List.mem_cons_self _ _) hapi
      simp [auto_claim_scan, hapi, hcl, hrest.1, hrest.2]
    · simp [auto_claim_scan, hapi, hrest.1, hrest.2]

/-! ## Claim theorems -/

/-- C10: `windows_get_config_descriptor` returns `LIBUSB_ERROR_INVALID_PARAM`
when the zero-based index is not below `num_configurations`,
`LIBUSB_ERROR_NOT_FOUND` when no blob is cached for the index, and otherwise
copies exactly `min wTotalLength len` bytes and returns that count — a short
buffer truncates silently, it never yields `LIBUSB_ERROR_OVERFLOW`. -/
theorem windows_get_config_descriptor_spec (n : Nat)
    (blobs : List (Option (List Nat))) (idx len : Nat) :
    (idx ≥ n → windows_get_config_descriptor n (some blobs) idx len
      = (LIBUSB_ERROR_INVALID_PARAM, []))
    ∧ (idx < n → windows_get_config_descriptor n none idx len
      = (LIBUSB_ERROR_NOT_FOUND, []))
    ∧ (idx < n → blobs.getD idx none = none →
      windows_get_config_descriptor n (some blobs) idx len
        = (LIBUSB_ERROR_NOT_FOUND, []))
    ∧ (∀ blob, idx < n → blobs.getD idx none = some blob →
      windows_get_config_descriptor n (some blobs) idx len
        = (((min (wTotalLength blob) len : Nat) : Int),
           blob.take (min (wTotalLength blob) len))
      ∧ (windows_get_config_descriptor n (some blobs) idx len).1
          ≠ LIBUSB_ERROR_OVERFLOW) := by
  refine ⟨fun h => ?_, fun h => ?_, fun h hb => ?_, fun blob h hb => ?_⟩
  · rw [windows_get_config_descriptor, if_pos h]
  · rw [windows_get_config_descriptor, if_neg (by omega)]
  · rw [windows_get_config_descriptor, if_neg (by omega)]
    simp only [hb]
  · have he : windows_get_config_descriptor n (some blobs) idx len
        = (((min (wTotalLength blob) len : Nat) : Int),
           blob.take (min (wTotalLength blob) len)) := by
      rw [windows_get_config_descriptor, if_neg (by omega)]
      simp only [hb]
    refine ⟨he, ?_⟩
    rw [he]
    simp [LIBUSB_ERROR_OVERFLOW]
    omega

/-- C10 witness: a 25-byte descriptor read into a 4-byte buffer succeeds
with the truncated length 4. -/
theorem windows_get_config_descriptor_spec_witness :
    windows_get_config_descriptor 1 (some [some [9, 2, 25, 0, 1]]) 0 4
      = (4, [9, 2, 25, 0]) := by
  have h := (windows_get_config_descriptor_spec 1 [some [9, 2, 25, 0, 1]] 0 4).2.2.2
    [9, 2, 25, 0, 1] (by decide) (by decide)
  exact h.1.trans (by decide)

/-- C1: auto-claiming an interface `N` whose auto-claim count is already
positive (the valid-interface branch of `auto_claim`) increments the count
and invokes no claim operation (`claimCalls = []`); every teardown's
`auto_release` decrements the count of an auto-claimed interface, and
`libusb_release_interface` is invoked exactly at the teardown that takes
the count to zero — over `n` teardowns it is invoked exactly once if they
suffice to drain a positive count, and never while the count is still
positive. -/
theorem auto_claim_release_refcount (apib : Nat → Nat) (claimOK : Nat → Bool)
    (api_type : Nat) (counts : List Nat) (N c n : Nat)
    (hapi : api_type = USB_API_WINUSBX ∨ api_type = USB_API_HID)
    (hc : counts.getD N 0 = c) :
    (0 < c → auto_claim apib claimOK counts (N : Int) api_type
      = ⟨LIBUSB_SUCCESS, (N : Int), counts.set N (c + 1), []⟩)
    ∧ (auto_release counts N).1
        = (if 0 < c then counts.set N (c - 1) else counts)
    ∧ ((auto_release counts N).2 = true ↔ c = 1)
    ∧ (auto_release_iter counts N n).2 = (if 1 ≤ c ∧ c ≤ n then 1 else 0) := by
  refine ⟨fun hpos => ?_, ?_, ?_, ?_⟩
  · rw [auto_claim, if_pos hapi, if_neg (by omega)]
    simp only [Int.toNat_natCast, hc]
    rw [if_pos (by omega)]
  · rw [auto_release, hc]
    split_ifs <;> rfl
  · rw [auto_release, hc]
    by_cases hpos : 0 < c
    · rw [if_pos hpos]
      simp only [decide_eq_true_eq]
      omega
    · rw [if_neg hpos]
      simp only [Bool.false_eq_true, false_iff]
      omega
  · rw [auto_release_iter_count, hc]

/-- C1 witness: a counter at 2 is bumped to 3 with no claim call, and three
teardowns release the interface exactly once. -/
theorem auto_claim_release_refcount_witness :
    auto_claim (fun _ => USB_API_WINUSBX) (fun _ => true) [2, 0] (0 : Nat)
      USB_API_WINUSBX = ⟨LIBUSB_SUCCESS, 0, [3, 0], []⟩
    ∧ (auto_release_iter [2, 0] 0 3).2 = 1 := by
  have h := auto_claim_release_refcount (fun _ => USB_API_WINUSBX) (fun _ => true)
    USB_API_WINUSBX [2, 0] 0 2 3 (Or.inl rfl) rfl
  exact ⟨(h.1 (by omega)).trans (by decide), h.2.2.2.trans (by decide)⟩

/-- C9: when the caller found no serviceable interface (negative interface
number) and no interface of the requested backend family claims
successfully, `auto_claim` reports `LIBUSB_ERROR_NOT_FOUND` with the
auto-claim counters untouched, and `winusbx_submit_control_transfer`
surfaces that as `LIBUSB_ERROR_NOT_FOUND`. -/
theorem auto_claim_not_found_no_mutation (apib : Nat → Nat) (claimOK : Nat → Bool)
    (counts : List Nat) (valid_interface : Int)
    (hv : valid_interface < 0)
    (h : ∀ i, i < USB_MAXINTERFACES → apib i = USB_API_WINUSBX → claimOK i = false) :
    winusbx_submit_control_resolve apib claimOK counts valid_interface
      = Except.error LIBUSB_ERROR_NOT_FOUND
    ∧ (auto_claim apib claimOK counts valid_interface USB_API_WINUSBX).r
        = LIBUSB_ERROR_NOT_FOUND
    ∧ (auto_claim apib claimOK counts valid_interface USB_API_WINUSBX).counts
        = counts
    ∧ (auto_claim apib claimOK counts valid_interface USB_API_WINUSBX).interface_number
        = (USB_MAXINTERFACES : Int) := by
  have hscan := auto_claim_scan_none apib claimOK USB_API_WINUSBX counts
    (List.range USB_MAXINTERFACES)
    fun i hi hapi => h i (List.mem_range.mp hi) hapi
  have hclaim : auto_claim apib claimOK counts valid_interface USB_API_WINUSBX
      = ⟨LIBUSB_ERROR_NOT_FOUND, (USB_MAXINTERFACES : Int), counts,
         (auto_claim_scan apib claimOK USB_API_WINUSBX counts
           (List.range USB_MAXINTERFACES)).2.2⟩ := by
    rw [auto_claim, if_pos (Or.inl rfl), if_pos hv]
    rcases hma : auto_claim_scan apib claimOK USB_API_WINUSBX counts
      (List.range USB_MAXINTERFACES) with ⟨f, c2, cl⟩
    rw [hma] at hscan
    obtain ⟨h1, h2⟩ := hscan
    simp only at h1 h2
    rw [h1, h2]
  refine ⟨?_, by rw [hclaim], by rw [hclaim], by rw [hclaim]⟩
  rw [winusbx_submit_control_resolve, if_pos hv, hclaim]
  simp [LIBUSB_ERROR_NOT_FOUND, LIBUSB_SUCCESS]

/-- C9 witness: two WinUSB interfaces, every claim attempt failing. -/
theorem auto_claim_not_found_no_mutation_witness :
    winusbx_submit_control_resolve (fun _ => USB_API_WINUSBX) (fun _ => false)
      [0, 0] (-1) = Except.error LIBUSB_ERROR_NOT_FOUND
    ∧ (auto_claim (fun _ => USB_API_WINUSBX) (fun _ => false) [0, 0] (-1)
        USB_API_WINUSBX).counts = [0, 0] := by
  have h := auto_claim_not_found_no_mutation (fun _ => USB_API_WINUSBX)
    (fun _ => false) [0, 0] (-1) (by omega) (fun _ _ _ => rfl)
  exact ⟨h.1, h.2.2.1⟩

/-- C2 counterexample: on a successful HID read that overran the expected
size, the completion path reports `LIBUSB_TRANSFER_OVERFLOW`, which is not
in the claimed vocabulary {Completed, Stall, TimedOut, Cancelled, Error}. -/
theorem windows_transfer_callback_overflow_counterexample :
    (windows_transfer_callback
      (fun sz => (hid_copy_transfer_data ⟨some [1, 2, 3], true, 2⟩ sz).1)
      false NO_ERROR 4).status = LIBUSB_TRANSFER_OVERFLOW
    ∧ ¬((windows_transfer_callback
        (fun sz => (hid_copy_transfer_data ⟨some [1, 2, 3], true, 2⟩ sz).1)
        false NO_ERROR 4).status = LIBUSB_TRANSFER_COMPLETED
      ∨ (windows_transfer_callback
        (fun sz => (hid_copy_transfer_data ⟨some [1, 2, 3], true, 2⟩ sz).1)
        false NO_ERROR 4).status = LIBUSB_TRANSFER_STALL
      ∨ (windows_transfer_callback
        (fun sz => (hid_copy_transfer_data ⟨some [1, 2, 3], true, 2⟩ sz).1)
        false NO_ERROR 4).status = LIBUSB_TRANSFER_TIMED_OUT
      ∨ (windows_transfer_callback
        (fun sz => (hid_copy_transfer_data ⟨some [1, 2, 3], true, 2⟩ sz).1)
        false NO_ERROR 4).status = LIBUSB_TRANSFER_CANCELLED
      ∨ (windows_transfer_callback
        (fun sz => (hid_copy_transfer_data ⟨some [1, 2, 3], true, 2⟩ sz).1)
        false NO_ERROR 4).status = LIBUSB_TRANSFER_ERROR) := by
  decide

/-- C2 (amended): the completion path reports exactly one terminal status;
for any result code other than `NO_ERROR` it is drawn from
{Stall, TimedOut, Cancelled, Error}; on `NO_ERROR` it is exactly what the
backend's copy step returns (Completed for the WinUSB copy step, but
possibly Overflow for the HID one); the copy step is invoked before the
status is reported both on `NO_ERROR` and on `ERROR_OPERATION_ABORTED`,
and on the latter the copy step's result never changes the
already-determined Cancelled or TimedOut status. -/
theorem windows_transfer_callback_status_spec (copy copy2 : Nat → Int)
    (timedOut : Bool) (io_result io_size : Nat) :
    (io_result = NO_ERROR →
      windows_transfer_callback copy timedOut io_result io_size
        = ⟨copy io_size, 1⟩)
    ∧ (io_result ≠ NO_ERROR →
      (windows_transfer_callback copy timedOut io_result io_size).status
          ∈ [LIBUSB_TRANSFER_STALL, LIBUSB_TRANSFER_TIMED_OUT,
             LIBUSB_TRANSFER_CANCELLED, LIBUSB_TRANSFER_ERROR])
    ∧ (io_result = ERROR_OPERATION_ABORTED →
      (windows_transfer_callback copy timedOut io_result io_size).copyCalls = 1
      ∧ (windows_transfer_callback copy timedOut io_result io_size).status
          = (if timedOut then LIBUSB_TRANSFER_TIMED_OUT
             else LIBUSB_TRANSFER_CANCELLED)
      ∧ windows_transfer_callback copy timedOut io_result io_size
          = windows_transfer_callback copy2 timedOut io_result io_size)
    ∧ (winusbx_copy_transfer_data io_size).1 = LIBUSB_TRANSFER_COMPLETED := by
  refine ⟨fun h => ?_, fun h => ?_, fun h => ?_, rfl⟩
  · rw [windows_transfer_callback, if_pos h]
  · rw [windows_transfer_callback, if_neg h]
    split_ifs <;> simp
  · have habort : windows_transfer_callback copy timedOut io_result io_size
        = ⟨if timedOut then LIBUSB_TRANSFER_TIMED_OUT
           else LIBUSB_TRANSFER_CANCELLED, 1⟩ := by
      rw [windows_transfer_callback, if_neg (by rw [h]; decide),
        if_neg (by rw [h]; decide), if_neg (by rw [h]; decide), if_pos h]
    have habort2 : windows_transfer_callback copy2 timedOut io_result io_size
        = ⟨if timedOut then LIBUSB_TRANSFER_TIMED_OUT
           else LIBUSB_TRANSFER_CANCELLED, 1⟩ := by
      rw [windows_transfer_callback, if_neg (by rw [h]; decide),
        if_neg (by rw [h]; decide), if_neg (by rw [h]; decide), if_pos h]
    rw [habort, habort2]
    exact ⟨rfl, rfl, rfl⟩

/-- C2 (amended) witness: a cancelled transfer whose copy step fails keeps
status Cancelled regardless of the copy result. -/
theorem windows_transfer_callback_status_spec_witness :
    windows_transfer_callback (fun _ => LIBUSB_TRANSFER_COMPLETED) false 995 7
      = windows_transfer_callback (fun _ => LIBUSB_TRANSFER_ERROR) false 995 7
    ∧ (windows_transfer_callback (fun _ => LIBUSB_TRANSFER_COMPLETED)
        false 995 7).status = LIBUSB_TRANSFER_CANCELLED := by
  have h := (windows_transfer_callback_status_spec
    (fun _ => LIBUSB_TRANSFER_COMPLETED) (fun _ => LIBUSB_TRANSFER_ERROR)
    false 995 7).2.2.1 rfl
  exact ⟨h.2.2, h.2.1.trans (by decide)⟩

/-- C4 counterexample: the instance id "MMI_03" contains the literal marker
"MI_03" (bytes 77, 73, 95 followed by two decimal digits), yet the scan —
which consumes the characters examined by a failed partial match — misses
it, defaults to ordinal 0 with the warning, and installs the leaf into slot
0 instead of slot 3. -/
theorem set_composite_interface_marker_missed :
    ([77] ++ [77, 73, 95, 48, 51] = [77, 77, 73, 95, 48, 51])
    ∧ parse_mi [77, 77, 73, 95, 48, 51] = (0, true)
    ∧ (set_composite_interface freshComposite "itf" [77, 77, 73, 95, 48, 51]
        USB_API_WINUSBX 0).2.usb_interface.getD 3 emptySlot = emptySlot
    ∧ ((set_composite_interface freshComposite "itf" [77, 77, 73, 95, 48, 51]
        USB_API_WINUSBX 0).2.usb_interface.getD 0 emptySlot).path
      = some "itf" := by
  decide

/-- C4 (amended): the ordinal scan examines the id left to right but a
failed partial match of "MI_" consumes the characters it looked at, so only
markers not overlapping such a partial match are found; when the scan finds
no marker the ordinal defaults to 0 with a warning.  For child ids carrying
"MI_00" and "MI_03" slots 0 and 3 are populated while slots 1 and 2 remain
empty, and removing the "MI_00" interface clears slot 0 and no other
slot. -/
theorem composite_mi_scenario :
    parse_mi [65, 66] = (0, true)
    ∧ parse_mi [38, 77, 73, 95, 48, 48] = (0, false)
    ∧ parse_mi [38, 77, 73, 95, 48, 51] = (3, false)
    ∧ (((set_composite_interface
          (set_composite_interface freshComposite "p0" [38, 77, 73, 95, 48, 48]
            USB_API_WINUSBX 0).2
          "p3" [38, 77, 73, 95, 48, 51] USB_API_WINUSBX 0).2.usb_interface.getD
            0 emptySlot).path = some "p0")
    ∧ (((set_composite_interface
          (set_composite_interface freshComposite "p0" [38, 77, 73, 95, 48, 48]
            USB_API_WINUSBX 0).2
          "p3" [38, 77, 73, 95, 48, 51] USB_API_WINUSBX 0).2.usb_interface.getD
            3 emptySlot).path = some "p3")
    ∧ ((set_composite_interface
          (set_composite_interface freshComposite "p0" [38, 77, 73, 95, 48, 48]
            USB_API_WINUSBX 0).2
          "p3" [38, 77, 73, 95, 48, 51] USB_API_WINUSBX 0).2.usb_interface.getD
            1 emptySlot = emptySlot)
    ∧ ((set_composite_interface
          (set_composite_interface freshComposite "p0" [38, 77, 73, 95, 48, 48]
            USB_API_WINUSBX 0).2
          "p3" [38, 77, 73, 95, 48, 51] USB_API_WINUSBX 0).2.usb_interface.getD
            2 emptySlot = emptySlot)
    ∧ ((unset_composite_interface
          (set_composite_interface
            (set_composite_interface freshComposite "p0" [38, 77, 73, 95, 48, 48]
              USB_API_WINUSBX 0).2
            "p3" [38, 77, 73, 95, 48, 51] USB_API_WINUSBX 0).2
          [38, 77, 73, 95, 48, 48]).usb_interface.getD 0 emptySlot = emptySlot)
    ∧ (∀ j ∈ List.range USB_MAXINTERFACES, j ≠ 0 →
        (unset_composite_interface
          (set_composite_interface
            (set_composite_interface freshComposite "p0" [38, 77, 73, 95, 48, 48]
              USB_API_WINUSBX 0).2
            "p3" [38, 77, 73, 95, 48, 51] USB_API_WINUSBX 0).2
          [38, 77, 73, 95, 48, 48]).usb_interface.getD j emptySlot
        = (set_composite_interface
            (set_composite_interface freshComposite "p0" [38, 77, 73, 95, 48, 48]
              USB_API_WINUSBX 0).2
            "p3" [38, 77, 73, 95, 48, 51] USB_API_WINUSBX 0).2.usb_interface.getD
              j emptySlot) := by
  decide

/-- C5 counterexample: interface slot 3 is occupied by a non-HID (WinUSB)
leaf, yet an incoming HID candidate for the same slot is ignored with
`LIBUSB_ERROR_ACCESS` and the slot keeps its old data — the occupied-slot
policy tests only the new candidate's API, not the occupant's. -/
theorem set_composite_interface_non_hid_occupant_kept :
    ((set_composite_interface freshComposite "w" [77, 73, 95, 48, 51]
        USB_API_WINUSBX 0).2.usb_interface.getD 3 emptySlot).apibId
      = USB_API_WINUSBX
    ∧ ((set_composite_interface freshComposite "w" [77, 73, 95, 48, 51]
        USB_API_WINUSBX 0).2.usb_interface.getD 3 emptySlot).path = some "w"
    ∧ set_composite_interface
        (set_composite_interface freshComposite "w" [77, 73, 95, 48, 51]
          USB_API_WINUSBX 0).2 "h" [77, 73, 95, 48, 51] USB_API_HID 0
      = (LIBUSB_ERROR_ACCESS,
         (set_composite_interface freshComposite "w" [77, 73, 95, 48, 51]
           USB_API_WINUSBX 0).2) := by
  decide

/-- C5 (amended): when the target slot's path is already set, the decision
depends only on the new candidate's API: a HID candidate is ignored with
`LIBUSB_ERROR_ACCESS` (whatever occupies the slot), and any non-HID
candidate overwrites the slot with the newer data. -/
theorem set_composite_interface_occupied_policy (priv : CompositePriv)
    (path : String) (id : List Nat) (api : Nat) (sub : Int)
    (hcomp : priv.apibId = USB_API_COMPOSITE)
    (hn : (parse_mi id).1 < (USB_MAXINTERFACES : Int))
    (hocc : (priv.usb_interface.getD (parse_mi id).1.toNat emptySlot).path
      ≠ none) :
    (api = USB_API_HID →
      set_composite_interface priv path id api sub
        = (LIBUSB_ERROR_ACCESS, priv))
    ∧ (api ≠ USB_API_HID →
      set_composite_interface priv path id api sub
        = (LIBUSB_SUCCESS,
           { priv with usb_interface :=
               (priv.usb_interface.set (parse_mi id).1.toNat
                 ⟨some path, api, sub⟩) })) := by
  constructor
  · intro h
    rw [set_composite_interface, if_neg (by simp [hcomp]), if_neg (by omega),
      if_pos ⟨hocc, h⟩]
  · intro h
    rw [set_composite_interface, if_neg (by simp [hcomp]), if_neg (by omega),
      if_neg (by simp [h])]
    simp [h]

/-- C5 (amended) witness: a HID candidate against a WinUSB-occupied slot is
rejected with the state unchanged. -/
theorem set_composite_interface_occupied_policy_witness :
    set_composite_interface
      (set_composite_interface freshComposite "w" [77, 73, 95, 48, 51]
        USB_API_WINUSBX 0).2 "h" [77, 73, 95, 48, 51] USB_API_HID 0
      = (LIBUSB_ERROR_ACCESS,
         (set_composite_interface freshComposite "w" [77, 73, 95, 48, 51]
           USB_API_WINUSBX 0).2) :=
  (set_composite_interface_occupied_policy
    (set_composite_interface freshComposite "w" [77, 73, 95, 48, 51]
      USB_API_WINUSBX 0).2 "h" [77, 73, 95, 48, 51] USB_API_HID 0
    (by decide) (by decide) (by decide)).1 rfl

/-- C6: a successfully enumerated root hub (port number 0) gets device
address 1 and port number 0, and a successfully enumerated non-root device
gets its parent's bus number. -/
theorem init_device_root_and_bus (dev : UsbDevice) (priv : DevPrivState)
    (parent : Option (UsbDevice × DevPrivState)) (port_number : Nat)
    (env : InitEnv) :
    (port_number = 0 →
      (init_device dev priv parent port_number env).1 = LIBUSB_SUCCESS →
      (init_device dev priv parent port_number env).2.1.device_address = 1
      ∧ (init_device dev priv parent port_number env).2.1.port_number = 0)
    ∧ (port_number ≠ 0 →
      (init_device dev priv parent port_number env).1 = LIBUSB_SUCCESS →
      ∃ p, parent = some p
        ∧ (init_device dev priv parent port_number env).2.1.bus_number
            = p.1.bus_number) := by
  constructor
  · rintro rfl hs
    cases parent with
    | some p =>
      simp [init_device, LIBUSB_ERROR_OTHER, LIBUSB_SUCCESS] at hs
    | none =>
      cases henv : env.hcdBus with
      | none =>
        simp [init_device, henv] at hs ⊢
        split_ifs at hs ⊢ <;>
          simp_all [LIBUSB_ERROR_NOT_FOUND, LIBUSB_SUCCESS]
      | some b =>
        simp [init_device, henv] at hs ⊢
        split_ifs at hs ⊢ <;>
          simp_all [LIBUSB_ERROR_NOT_FOUND, LIBUSB_SUCCESS]
  · intro hp hs
    cases parent with
    | none =>
      rw [init_device, if_neg hp] at hs
      simp [LIBUSB_ERROR_NOT_FOUND, LIBUSB_SUCCESS] at hs
    | some p =>
      refine ⟨p, rfl, ?_⟩
      rcases p with ⟨pdev, ppriv⟩
      rw [init_device, if_neg hp] at hs ⊢
      simp only at hs ⊢
      split_ifs at hs ⊢ <;>
        simp_all [LIBUSB_ERROR_NOT_FOUND, LIBUSB_ERROR_ACCESS,
          LIBUSB_ERROR_NO_DEVICE, LIBUSB_SUCCESS]

/-- C6 witness: a device on port 2 of a hub with bus number 7. -/
theorem init_device_root_and_bus_witness :
    (init_device ⟨0, 0, 0, 0, 0⟩ ⟨0, 0, 0, 0⟩
      (some (⟨7, 1, 0, 1, 3⟩, ⟨USB_API_HUB, 0, 0, 1⟩)) 2
      ⟨none, true, true, ⟨false, 3, 1, 1, 1⟩, true⟩).1 = LIBUSB_SUCCESS
    ∧ (init_device ⟨0, 0, 0, 0, 0⟩ ⟨0, 0, 0, 0⟩
      (some (⟨7, 1, 0, 1, 3⟩, ⟨USB_API_HUB, 0, 0, 1⟩)) 2
      ⟨none, true, true, ⟨false, 3, 1, 1, 1⟩, true⟩).2.1.bus_number = 7 := by
  have h := (init_device_root_and_bus ⟨0, 0, 0, 0, 0⟩ ⟨0, 0, 0, 0⟩
    (some (⟨7, 1, 0, 1, 3⟩, ⟨USB_API_HUB, 0, 0, 1⟩)) 2
    ⟨none, true, true, ⟨false, 3, 1, 1, 1⟩, true⟩).2 (by omega) (by decide)
  obtain ⟨p, hp, hbus⟩ := h
  refine ⟨by decide, ?_⟩
  rw [hbus]
  cases hp
  rfl

/-- C8 counterexample: a non-root device whose OS-reported connection
address is 255 completes enumeration successfully with device address 0 —
`(uint8_t)conn_info.DeviceAddress + 1` wraps to zero, violating the claimed
invariant that an enumerated device never has address 0. -/
theorem init_device_address_zero_counterexample :
    (init_device ⟨0, 0, 0, 0, 0⟩ ⟨0, 0, 0, 0⟩
      (some (⟨1, 1, 0, 1, 3⟩, ⟨USB_API_HUB, 0, 0, 1⟩)) 2
      ⟨none, true, true, ⟨false, 255, 1, 1, 1⟩, true⟩).1 = LIBUSB_SUCCESS
    ∧ (init_device ⟨0, 0, 0, 0, 0⟩ ⟨0, 0, 0, 0⟩
      (some (⟨1, 1, 0, 1, 3⟩, ⟨USB_API_HUB, 0, 0, 1⟩)) 2
      ⟨none, true, true, ⟨false, 255, 1, 1, 1⟩, true⟩).2.1.device_address
        = 0 := by
  decide

/-- C8 (amended): a successfully enumerated root hub has address 1; a
non-root device whose address was already set keeps it; a non-root device
enumerated through the connection query gets
`((OS-reported address mod 256) + 1) mod 256`, which is non-zero whenever
the truncated OS address is not 255 (in particular for every address a USB
device can legally have). -/
theorem init_device_address_truncation (dev : UsbDevice) (priv : DevPrivState)
    (parent : Option (UsbDevice × DevPrivState)) (port_number : Nat)
    (env : InitEnv)
    (hs : (init_device dev priv parent port_number env).1 = LIBUSB_SUCCESS) :
    (port_number = 0 →
      (init_device dev priv parent port_number env).2.1.device_address = 1)
    ∧ (port_number ≠ 0 → dev.device_address ≠ 0 →
      (init_device dev priv parent port_number env).2.1.device_address
        = dev.device_address)
    ∧ (port_number ≠ 0 → dev.device_address = 0 →
      (init_device dev priv parent port_number env).2.1.device_address
        = (env.conn.deviceAddress % 256 + 1) % 256
      ∧ (env.conn.deviceAddress % 256 ≠ 255 →
        (init_device dev priv parent port_number env).2.1.device_address
          ≠ 0)) := by
  refine ⟨fun hp => ?_, fun hp ha => ?_, fun hp ha => ?_⟩
  · subst hp
    cases parent with
    | some p =>
      simp [init_device, LIBUSB_ERROR_OTHER, LIBUSB_SUCCESS] at hs
    | none =>
      cases henv : env.hcdBus with
      | none =>
        simp [init_device, henv] at hs ⊢
        split_ifs at hs ⊢ <;>
          simp_all [LIBUSB_ERROR_NOT_FOUND, LIBUSB_SUCCESS]
      | some b =>
        simp [init_device, henv] at hs ⊢
        split_ifs at hs ⊢ <;>
          simp_all [LIBUSB_ERROR_NOT_FOUND, LIBUSB_SUCCESS]
  · cases parent with
    | none =>
      rw [init_device, if_neg hp] at hs
      simp [LIBUSB_ERROR_NOT_FOUND, LIBUSB_SUCCESS] at hs
    | some p =>
      rcases p with ⟨pdev, ppriv⟩
      rw [init_device, if_neg hp] at hs ⊢
      simp only at hs ⊢
      split_ifs at hs ⊢ <;>
        simp_all [LIBUSB_ERROR_NOT_FOUND, LIBUSB_ERROR_ACCESS,
          LIBUSB_ERROR_NO_DEVICE, LIBUSB_SUCCESS]
  · cases parent with
    | none =>
      rw [init_device, if_neg hp] at hs
      simp [LIBUSB_ERROR_NOT_FOUND, LIBUSB_SUCCESS] at hs
    | some p =>
      rcases p with ⟨pdev, ppriv⟩
      rw [init_device, if_neg hp] at hs ⊢
      simp only at hs ⊢
      split_ifs at hs ⊢ <;>
        simp_all [LIBUSB_ERROR_NOT_FOUND, LIBUSB_ERROR_ACCESS,
          LIBUSB_ERROR_NO_DEVICE, LIBUSB_SUCCESS] <;>
        omega

/-- C8 (amended) witness: OS address 3 becomes device address 4, which is
non-zero. -/
theorem init_device_address_truncation_witness :
    (init_device ⟨0, 0, 0, 0, 0⟩ ⟨0, 0, 0, 0⟩
      (some (⟨7, 1, 0, 1, 3⟩, ⟨USB_API_HUB, 0, 0, 1⟩)) 2
      ⟨none, true, true, ⟨false, 3, 1, 1, 1⟩, true⟩).2.1.device_address = 4
    ∧ (init_device ⟨0, 0, 0, 0, 0⟩ ⟨0, 0, 0, 0⟩
      (some (⟨7, 1, 0, 1, 3⟩, ⟨USB_API_HUB, 0, 0, 1⟩)) 2
      ⟨none, true, true, ⟨false, 3, 1, 1, 1⟩, true⟩).2.1.device_address
        ≠ 0 := by
  have h := (init_device_address_truncation ⟨0, 0, 0, 0, 0⟩ ⟨0, 0, 0, 0⟩
    (some (⟨7, 1, 0, 1, 3⟩, ⟨USB_API_HUB, 0, 0, 1⟩)) 2
    ⟨none, true, true, ⟨false, 3, 1, 1, 1⟩, true⟩ (by decide)).2.2
    (by omega) rfl
  exact ⟨h.1.trans (by decide), h.2 (by decide)⟩

/-- The host-controller walk preserves the table's capacity. -/
theorem hcd_locate_length (id : String) :
    ∀ t : List (Option String), (hcd_locate t id).1.length = t.length := by
  intro t
  induction t with
  | nil => rfl
  | cons e rest ih =>
    cases e with
    | none => simp [hcd_locate]
    | some s =>
      by_cases hs : s = id
      · simp [hcd_locate, hs]
      · simp [hcd_locate, hs, ih]

/-- Once an id has been placed (the walk did not run off the end), walking
the updated table for the same id finds the same slot and changes
nothing. -/
theorem hcd_locate_stable (id : String) :
    ∀ t : List (Option String), (hcd_locate t id).2 ≠ t.length →
      hcd_locate (hcd_locate t id).1 id = hcd_locate t id := by
  intro t
  induction t with
  | nil => intro h; exact absurd rfl h
  | cons e rest ih =>
    intro h
    cases e with
    | none => simp [hcd_locate]
    | some s =>
      by_cases hs : s = id
      · simp [hcd_locate, hs]
      · have hne : (hcd_locate rest id).2 ≠ rest.length := by
          intro hc
          apply h
          simp [hcd_locate, hs, hc]
        have := ih hne
        simp [hcd_locate, hs, this]

/-- When the first `k` slots hold other controllers and slot `k` is free,
the walk installs the id into slot `k`. -/
theorem hcd_locate_first_free (id : String) :
    ∀ (t : List (Option String)) (k : Nat),
      (∀ j, j < k → ∃ s, t.getD j none = some s ∧ s ≠ id) →
      k < t.length → t.getD k none = none →
      hcd_locate t id = (t.set k (some id), k) := by
  intro t
  induction t with
  | nil => intro k _ hk; simp at hk
  | cons e rest ih =>
    intro k hprev hk hfree
    cases k with
    | zero =>
      have he : e = none := hfree
      subst he
      simp [hcd_locate]
    | succ k =>
      obtain ⟨s, hs, hsne⟩ := hprev 0 (Nat.succ_pos _)
      have he : e = some s := hs
      subst he
      have hrest := ih k
        (fun j hj => hprev (j + 1) (by omega))
        (by simpa using hk) hfree
      simp [hcd_locate, hsne, hrest]

/-- A table with every slot holding some other controller makes the walk
run off the end without modifying anything. -/
theorem hcd_locate_full (id : String) :
    ∀ t : List (Option String),
      (∀ j, j < t.length → ∃ s, t.getD j none = some s ∧ s ≠ id) →
      hcd_locate t id = (t, t.length) := by
  intro t
  induction t with
  | nil => intro _; rfl
  | cons e rest ih =>
    intro hfull
    obtain ⟨s, hs, hsne⟩ := hfull 0 (Nat.succ_pos _)
    have he : e = some s := hs
    subst he
    have hrest := ih fun j hj => hfull (j + 1) (by simpa using hj)
    simp [hcd_locate, hsne, hrest]

/-- C7: host-controller bus numbers are assigned once per distinct instance
id in first-seen order (`index + 1`); re-enumerating the same id returns
the same bus number with the table unchanged; and a full table holding only
other controllers yields no bus number (the enumeration of that controller
fails) and leaves the table unchanged. -/
theorem force_hcd_bus_spec (t : List (Option String)) (id : String)
    (k b : Nat) :
    ((force_hcd_bus t id).2 = some b →
      force_hcd_bus (force_hcd_bus t id).1 id = ((force_hcd_bus t id).1, some b))
    ∧ ((∀ j, j < k → ∃ s, t.getD j none = some s ∧ s ≠ id) → k < t.length →
      t.getD k none = none →
      force_hcd_bus t id = (t.set k (some id), some ((k + 1) % 256)))
    ∧ ((∀ j, j < t.length → ∃ s, t.getD j none = some s ∧ s ≠ id) →
      force_hcd_bus t id = (t, none)) := by
  refine ⟨fun h => ?_, fun hprev hk hfree => ?_, fun hfull => ?_⟩
  · have hne : (hcd_locate t id).2 ≠ t.length := by
      intro hc
      rw [force_hcd_bus, if_pos hc] at h
      exact Option.noConfusion h
    have hb : b = ((hcd_locate t id).2 + 1) % 256 := by
      rw [force_hcd_bus, if_neg hne] at h
      exact (Option.some_inj.mp h).symm
    have hstable := hcd_locate_stable id t hne
    have hlen := hcd_locate_length id t
    have hfst : (force_hcd_bus t id).1 = (hcd_locate t id).1 := by
      rw [force_hcd_bus, if_neg hne]
    rw [hfst, force_hcd_bus, hstable, if_neg (by rw [hlen]; exact hne), hb]
  · have hloc := hcd_locate_first_free id t k hprev hk hfree
    rw [force_hcd_bus, hloc]
    simp only
    rw [if_neg (by omega)]
  · have hloc := hcd_locate_full id t hfull
    rw [force_hcd_bus, hloc]
    simp

/-- C7 witness: the first controller seen lands in slot 0 of the fresh
table and gets bus number 1. -/
theorem force_hcd_bus_spec_witness :
    force_hcd_bus host_controller_init "PCI87"
      = (host_controller_init.set 0 (some "PCI87"), some 1) := by
  have h := (force_hcd_bus_spec host_controller_init "PCI87" 0 1).2.1
    (fun j hj => absurd hj (Nat.not_lt_zero j)) (by decide) rfl
  exact h.trans (by decide)

/-- The probe step keeps indices in `[1, size]`. -/
theorem hstep_bounds (size hval2 idx : Nat) (h2 : 1 ≤ hval2)
    (h3 : hval2 ≤ size - 2) (hsz : 3 ≤ size) (h1 : 1 ≤ idx) (h4 : idx ≤ size) :
    1 ≤ hstep size hval2 idx ∧ hstep size hval2 idx ≤ size := by
  unfold hstep
  split_ifs with h <;> omega

/-- An insertion index selected by the probe loop is either the cycle
break-out (`hval`) or a free entry. -/
theorem htab_probe_insertAt_cases (t : Htab) (hval hval2 : Nat) (s : List Nat) :
    ∀ (fuel idx i : Nat),
      htab_probe t hval hval2 s idx fuel = ProbeRes.insertAt i →
      i = hval ∨ (htab_entryAt t i).used = 0 := by
  intro fuel
  induction fuel with
  | zero =>
    intro idx i h
    exact ProbeRes.noConfusion h
  | succ fuel ih =>
    intro idx i h
    rw [htab_probe] at h
    split_ifs at h with h1 h2 h3
    · simp only [ProbeRes.insertAt.injEq] at h
      exact Or.inl (h ▸ h1)
    · exact ih _ _ h
    · simp only [ProbeRes.insertAt.injEq] at h
      exact Or.inr (h ▸ not_ne_iff.mp h3)

/-- An insertion index selected by the probe loop stays within the table
(`≤ size`). -/
theorem htab_probe_insertAt_le (t : Htab) (hval hval2 : Nat) (s : List Nat)
    (h2 : 1 ≤ hval2) (h3 : hval2 ≤ t.size - 2) (hsz : 3 ≤ t.size) :
    ∀ (fuel idx i : Nat), 1 ≤ idx → idx ≤ t.size →
      htab_probe t hval hval2 s idx fuel = ProbeRes.insertAt i →
      i ≤ t.size := by
  intro fuel
  induction fuel with
  | zero =>
    intro idx i _ _ h
    exact ProbeRes.noConfusion h
  | succ fuel ih =>
    intro idx i hi1 hi2 h
    have hb := hstep_bounds t.size hval2 idx h2 h3 hsz hi1 hi2
    rw [htab_probe] at h
    split_ifs at h with h1 hm hu
    · simp only [ProbeRes.insertAt.injEq] at h
      omega
    · exact ih _ _ hb.1 hb.2 h
    · simp only [ProbeRes.insertAt.injEq] at h
      omega

/-- Key probe lemma: once the string has been written into the free slot
`i` that the probe selected, running the same probe again finds it. -/
theorem htab_probe_after_insert (t : Htab) (hval hval2 : Nat) (s : List Nat)
    (i : Nat) (hine : i ≠ hval) (hiu : (htab_entryAt t i).used = 0)
    (hilen : i < t.table.length) :
    ∀ (fuel idx : Nat),
      htab_probe t hval hval2 s idx fuel = ProbeRes.insertAt i →
      htab_probe ⟨t.size, t.filled + 1, t.table.set i ⟨hval, some s⟩⟩
        hval hval2 s idx fuel = ProbeRes.found i := by
  intro fuel
  induction fuel with
  | zero =>
    intro idx h
    exact ProbeRes.noConfusion h
  | succ fuel ih =>
    intro idx h
    rw [htab_probe] at h
    rw [htab_probe]
    simp only at h ⊢
    by_cases h1 : hstep t.size hval2 idx = hval
    · rw [if_pos h1] at h
      simp only [ProbeRes.insertAt.injEq] at h
      exact absurd (h ▸ h1) hine
    · rw [if_neg h1] at h ⊢
      by_cases hm : htab_entry_matches t (hstep t.size hval2 idx) hval s
      · rw [if_pos hm] at h
        exact ProbeRes.noConfusion h
      · rw [if_neg hm] at h
        by_cases hu : (htab_entryAt t (hstep t.size hval2 idx)).used ≠ 0
        · rw [if_pos hu] at h
          have hji : i ≠ hstep t.size hval2 idx := by
            intro he
            exact hu (by rw [← he, hiu])
          have hent : htab_entryAt ⟨t.size, t.filled + 1,
              t.table.set i ⟨hval, some s⟩⟩ (hstep t.size hval2 idx)
              = htab_entryAt t (hstep t.size hval2 idx) := by
            unfold htab_entryAt
            exact list_getD_set_ne _ _ _ _ _ hji
          rw [if_neg (by
            unfold htab_entry_matches at hm ⊢
            rw [hent]
            exact hm)]
          rw [if_pos (by rw [hent]; exact hu)]
          exact ih _ h
        · rw [if_neg hu] at h
          simp only [ProbeRes.insertAt.injEq] at h
          have hji : hstep t.size hval2 idx = i := h
          rw [if_pos (by
            unfold htab_entry_matches htab_entryAt
            rw [hji, list_getD_set_self _ _ _ _ hilen]
            exact ⟨rfl, rfl⟩)]
          rw [hji]

/-- `htab_lookup_insert` never changes the table size. -/
theorem htab_lookup_insert_size (t : Htab) (hval : Nat) (s : List Nat) :
    (htab_lookup_insert t hval s).2.size = t.size := by
  rw [htab_lookup_insert]
  split_ifs with hu hm
  · rfl
  · cases hp : htab_probe t hval (1 + hval % (t.size - 2)) s hval t.size with
    | found i => rfl
    | insertAt i =>
      show (htab_insert t i hval s).2.size = t.size
      rw [htab_insert]
      split_ifs <;> rfl
    | fuelOut => rfl
  · rw [htab_insert]
    split_ifs <;> rfl

/-- The table hash is in `[1, size)`. -/
theorem htab_main_hval_bounds (size : Nat) (s : List Nat) (hsz : 3 ≤ size) :
    1 ≤ htab_main_hval size s ∧ htab_main_hval size s < size := by
  unfold htab_main_hval
  set r := if djb2 s = 0 then 1 else djb2 s with hr
  have hmod : r % size < size := Nat.mod_lt _ (by omega)
  split_ifs with h <;> omega

/-- Core of the C3 idempotence: after a successful `htab_lookup_insert`,
repeating the same lookup returns the same index and changes nothing. -/
theorem htab_lookup_insert_idempotent (t : Htab) (hval : Nat) (s : List Nat)
    (hsz : 3 ≤ t.size) (hlen : t.table.length = t.size + 1)
    (hv1 : 1 ≤ hval) (hv2 : hval < t.size)
    (hok : (htab_lookup_insert t hval s).1 ≠ 0) :
    htab_lookup_insert (htab_lookup_insert t hval s).2 hval s
      = htab_lookup_insert t hval s := by
  by_cases hu : (htab_entryAt t hval).used ≠ 0
  · by_cases hm : htab_entry_matches t hval hval s
    · have hX : htab_lookup_insert t hval s = (hval, t) := by
        rw [htab_lookup_insert, if_pos hu, if_pos hm]
      rw [hX]
      exact hX
    · cases hp : htab_probe t hval (1 + hval % (t.size - 2)) s hval t.size with
      | found i =>
        have hX : htab_lookup_insert t hval s = (i, t) := by
          rw [htab_lookup_insert, if_pos hu, if_neg hm, hp]
        rw [hX]
        show htab_lookup_insert t hval s = (i, t)
        exact hX
      | fuelOut =>
        have hX : htab_lookup_insert t hval s = (0, t) := by
          rw [htab_lookup_insert, if_pos hu, if_neg hm, hp]
        rw [hX] at hok
        exact absurd rfl hok
      | insertAt i =>
        by_cases hfull : t.filled ≥ t.size
        · have hX : htab_lookup_insert t hval s = (0, t) := by
            rw [htab_lookup_insert, if_pos hu, if_neg hm, hp]
            show htab_insert t i hval s = (0, t)
            rw [htab_insert, if_pos hfull]
          rw [hX] at hok
          exact absurd rfl hok
        · have hX : htab_lookup_insert t hval s
              = (i, ⟨t.size, t.filled + 1, t.table.set i ⟨hval, some s⟩⟩) := by
            rw [htab_lookup_insert, if_pos hu, if_neg hm, hp]
            show htab_insert t i hval s = _
            rw [htab_insert, if_neg hfull]
          set t2 : Htab := ⟨t.size, t.filled + 1, t.table.set i ⟨hval, some s⟩⟩
            with ht2
          rw [hX]
          show htab_lookup_insert t2 hval s = (i, t2)
          by_cases hih : i = hval
          · subst hih
            have hent : htab_entryAt t2 i = ⟨i, some s⟩ := by
              unfold htab_entryAt
              rw [ht2]
              exact list_getD_set_self _ _ _ _ (by omega)
            rw [htab_lookup_insert,
              if_pos (show (htab_entryAt t2 i).used ≠ 0 by
                rw [hent]; show i ≠ 0; omega),
              if_pos (show htab_entry_matches t2 i i s by
                unfold htab_entry_matches; rw [hent]; exact ⟨rfl, rfl⟩)]
          · have hiu : (htab_entryAt t i).used = 0 :=
              (htab_probe_insertAt_cases t hval _ s t.size hval i hp).resolve_left
                hih
            have hh2 : 1 ≤ 1 + hval % (t.size - 2) := by omega
            have hh3 : 1 + hval % (t.size - 2) ≤ t.size - 2 := by
              have := Nat.mod_lt hval (show 0 < t.size - 2 by omega)
              omega
            have hile : i ≤ t.size :=
              htab_probe_insertAt_le t hval _ s hh2 hh3 hsz t.size hval i hv1
                (by omega) hp
            have hilen : i < t.table.length := by omega
            have hfound := htab_probe_after_insert t hval
              (1 + hval % (t.size - 2)) s i hih hiu hilen t.size hval hp
            rw [← ht2] at hfound
            have hent : htab_entryAt t2 hval = htab_entryAt t hval := by
              unfold htab_entryAt
              rw [ht2]
              exact list_getD_set_ne _ _ _ _ _ hih
            have hsz2 : t2.size = t.size := by rw [ht2]
            rw [htab_lookup_insert,
              if_pos (show (htab_entryAt t2 hval).used ≠ 0 by
                rw [hent]; exact hu),
              if_neg (show ¬htab_entry_matches t2 hval hval s by
                unfold htab_entry_matches at hm ⊢; rw [hent]; exact hm),
              hsz2, hfound]
  · by_cases hfull : t.filled ≥ t.size
    · have hX : htab_lookup_insert t hval s = (0, t) := by
        rw [htab_lookup_insert, if_neg hu, htab_insert, if_pos hfull]
      rw [hX] at hok
      exact absurd rfl hok
    · have hX : htab_lookup_insert t hval s
          = (hval, ⟨t.size, t.filled + 1, t.table.set hval ⟨hval, some s⟩⟩) := by
        rw [htab_lookup_insert, if_neg hu, htab_insert, if_neg hfull]
      set t2 : Htab := ⟨t.size, t.filled + 1, t.table.set hval ⟨hval, some s⟩⟩
        with ht2
      rw [hX]
      show htab_lookup_insert t2 hval s = (hval, t2)
      have hent : htab_entryAt t2 hval = ⟨hval, some s⟩ := by
        unfold htab_entryAt
        rw [ht2]
        exact list_getD_set_self _ _ _ _ (by omega)
      rw [htab_lookup_insert,
        if_pos (show (htab_entryAt t2 hval).used ≠ 0 by
          rw [hent]; show hval ≠ 0; omega),
        if_pos (show htab_entry_matches t2 hval hval s by
          unfold htab_entry_matches; rw [hent]; exact ⟨rfl, rfl⟩)]

/-- C3: hashing the same non-null string twice against the same table
instance (first call successful: the table was not full, so the result
index is non-zero) returns the same identifier, and the second call leaves
the whole table — in particular the filled-entry count — unchanged. -/
theorem htab_hash_idempotent (t : Htab) (s : List Nat)
    (hsz : 3 ≤ t.size) (hlen : t.table.length = t.size + 1)
    (hok : (htab_hash t (some s)).1 ≠ 0) :
    htab_hash (htab_hash t (some s)).2 (some s) = htab_hash t (some s)
    ∧ ((htab_hash (htab_hash t (some s)).2 (some s)).2).filled
        = ((htab_hash t (some s)).2).filled := by
  have hb := htab_main_hval_bounds t.size s hsz
  have hsize2 : ((htab_hash t (some s)).2).size = t.size :=
    htab_lookup_insert_size t (htab_main_hval t.size s) s
  have hcore := htab_lookup_insert_idempotent t (htab_main_hval t.size s) s
    hsz hlen hb.1 hb.2 hok
  have hmain : htab_hash (htab_hash t (some s)).2 (some s)
      = htab_hash t (some s) := by
    calc htab_hash (htab_hash t (some s)).2 (some s)
        = htab_lookup_insert (htab_hash t (some s)).2
            (htab_main_hval ((htab_hash t (some s)).2).size s) s := rfl
      _ = htab_lookup_insert (htab_hash t (some s)).2
            (htab_main_hval t.size s) s := by rw [hsize2]
      _ = htab_hash t (some s) := hcore
  exact ⟨hmain, by rw [hmain]⟩

/-- C3 witness: the string `"A"` hashed twice into a fresh 5-entry table
lands at index 3 both times with the table unchanged by the second call. -/
theorem htab_hash_idempotent_witness :
    htab_hash (htab_hash (htab_fresh 5) (some [65])).2 (some [65])
      = htab_hash (htab_fresh 5) (some [65])
    ∧ (htab_hash (htab_fresh 5) (some [65])).1 = 3 := by
  have h := htab_hash_idempotent (htab_fresh 5) [65] (by decide) (by decide)
    (by decide)
  exact ⟨h.1, by decide⟩
